import Mathlib

/-!
Shallow embedding of the per-window reconciliation state machine of
`window/src/os/wayland/window.rs` (struct `WaylandWindowInner`, struct
`PendingEvent`, and the `WaylandState` handler plumbing around them).

Modelling conventions:
* The `f64` arithmetic of `get_dpi_factor` / `surface_to_pixels` /
  `pixels_to_surface` is embedded exactly: the ceiling of the real ratio is
  computed with integer ceiling division, and bridge lemmas
  (`surface_to_pixels_eq_ceil`, `pixels_to_surface_eq_ceil`) relate it to the
  rational-ceiling specification. DPI values, surface sizes and scale factors
  are the small integers the protocol delivers, for which the `f64`
  computation is exact.
* External objects are reduced to what the core reads of them: the
  `Option<XdgWindow>` handle becomes the boolean `window_open`, the one-shot
  `async_channel::Sender` becomes the boolean `pending_first_configure`, the
  outstanding `WlCallback` becomes the boolean `frame_callback`; the `f64`
  field `surface_factor` only ever holds the integer scale factors the
  protocol delivers and is embedded as `Nat`.
* Calls into external collaborators (surface commit, `window.set_title`,
  `surface.frame(..)` registration, buffer attach, first-configure signal)
  are recorded in an ordered `Effect` list; events dispatched to the
  application are recorded in an ordered `WindowEvent` list.
* Rust panics (`unwrap` / `expect`) are modelled by `Option`: a function
  returns `none` exactly when the Rust code would panic.
* `pool.create_buffer` in the scale-change branch is an external fallible
  allocation; it is modelled as succeeding.
-/

namespace Wayland

/-- Embedding of `crate::DEFAULT_DPI` (96.0), the reference DPI. -/
def DEFAULT_DPI : Nat := 96

/-- Embedding of `WaylandWindowInner::get_dpi_factor`: `dpi / DEFAULT_DPI` as exact rational. -/
def get_dpi_factor (dpi : Nat) : ℚ := (dpi : ℚ) / (DEFAULT_DPI : ℚ)

/-- Embedding of `WaylandWindowInner::surface_to_pixels`: `ceil(surface * dpi_factor)`,
computed exactly as the integer ceiling of `surface * dpi / DEFAULT_DPI`
(`-(-a / b)` is `⌈a / b⌉` since `Int` division rounds toward `-∞`);
`surface_to_pixels_eq_ceil` relates it to the rational ceiling. -/
def surface_to_pixels (dpi : Nat) (surface : Int) : Int :=
  -(-(surface * (dpi : Int)) / (DEFAULT_DPI : Int))

/-- Embedding of `WaylandWindowInner::pixels_to_surface`: `ceil(pixels / dpi_factor)` as
the integer ceiling of `pixels * DEFAULT_DPI / dpi`; rounds up so that
scaling down never loses a row/column. `pixels_to_surface_eq_ceil` relates
it to the rational ceiling. -/
def pixels_to_surface (dpi : Nat) (pixels : Int) : Int :=
  -(-(pixels * (DEFAULT_DPI : Int)) / (dpi : Int))

/-- Integer ceiling division agrees with the rational ceiling. -/
theorem neg_ediv_neg_eq_ceil (a : Int) (b : Nat) :
    -(-a / (b : Int)) = ⌈(a : ℚ) / (b : ℚ)⌉ := by
  rw [← Rat.floor_intCast_div_natCast (-a) b, Int.cast_neg, neg_div,
    Int.floor_neg, neg_neg]

/-- Lemma: `surface_to_pixels` is the rational-ceiling specification
`⌈surface * dpi_factor⌉`. -/
theorem surface_to_pixels_eq_ceil (dpi : Nat) (surface : Int) :
    surface_to_pixels dpi surface = ⌈(surface : ℚ) * get_dpi_factor dpi⌉ := by
  unfold surface_to_pixels get_dpi_factor
  rw [neg_ediv_neg_eq_ceil]
  congr 1
  push_cast
  ring

/-- Lemma: `pixels_to_surface` is the rational-ceiling specification
`⌈pixels / dpi_factor⌉`. -/
theorem pixels_to_surface_eq_ceil (dpi : Nat) (pixels : Int) :
    pixels_to_surface dpi pixels = ⌈(pixels : ℚ) / get_dpi_factor dpi⌉ := by
  unfold pixels_to_surface get_dpi_factor
  rw [neg_ediv_neg_eq_ceil, div_div_eq_mul_div]
  congr 1
  push_cast
  ring

/-- Embedding of `crate::Dimensions`: canonical pixel dimensions plus DPI. -/
structure Dimensions where
  pixel_width : Nat
  pixel_height : Nat
  dpi : Nat
deriving DecidableEq, Repr

/-- The two `crate::WindowState` bitflags this file ever sets
(`FULL_SCREEN`, `MAXIMIZED`). -/
structure WindowState where
  full_screen : Bool
  maximized : Bool
deriving DecidableEq, Repr

/-- Embedding of `WindowState::default()`: no flags set. -/
def WindowState.default : WindowState := ⟨false, false⟩

/-- Modelled from the spec: `WindowState::can_resize` is defined outside this
file; per the spec the window-state flags indicate resizing is permitted
exactly when the window is neither full-screen nor maximized. -/
def WindowState.can_resize (ws : WindowState) : Bool :=
  !(ws.full_screen || ws.maximized)

/-- Embedding of `PendingEvent`: the pending-update buffer drained by the reconciler. -/
structure PendingEvent where
  close : Bool
  had_configure_event : Bool
  refresh_decorations : Bool
  configure : Option (Nat × Nat)
  dpi : Option Int
  window_state : Option WindowState
deriving DecidableEq, Repr

/-- Embedding of `PendingEvent::default()`: the empty buffer. -/
def PendingEvent.default : PendingEvent :=
  { close := false
    had_configure_event := false
    refresh_decorations := false
    configure := none
    dpi := none
    window_state := none }

/-- The bits of the SCTK `WindowState` that `handle_window_event` reads. -/
structure SCTKWindowState where
  fullscreen : Bool
  maximized : Bool
  tiled_left : Bool
  tiled_right : Bool
  tiled_top : Bool
  tiled_bottom : Bool
deriving DecidableEq, Repr

/-- The fields of SCTK `WindowConfigure` that `handle_window_event` reads:
`new_size` (each component optional) and the window-state bits. -/
structure WindowConfigure where
  new_size : Option Nat × Option Nat
  state : SCTKWindowState
deriving DecidableEq, Repr

/-- Embedding of `enum WaylandWindowEvent`. -/
inductive WaylandWindowEvent where
  | Close
  | Request (configure : WindowConfigure)
deriving DecidableEq, Repr

/-- The `crate::WindowEvent` variants this file dispatches to the application. -/
inductive WindowEvent where
  | CloseRequested
  | Destroyed
  | Resized (dimensions : Dimensions) (window_state : WindowState)
      (live_resizing : Bool)
  | NeedRepaint
deriving DecidableEq, Repr

/-- Observable calls into external collaborators, in emission order. -/
inductive Effect where
  | Commit
  | SetTitle (title : String)
  | FrameRequest
  | AttachBuffer (factor : Nat)
  | SignalFirstConfigure
deriving DecidableEq, Repr

/-- The fields of `WaylandWindowInner` the core reads or writes. -/
structure WaylandWindowInner where
  surface_factor : Nat
  window_open : Bool
  dimensions : Dimensions
  resize_increments : Option (Nat × Nat)
  window_state : WindowState
  pending_first_configure : Bool
  frame_callback : Bool
  invalidated : Bool
  config_dpi : Option Nat
  title : Option String
deriving DecidableEq, Repr

/-- Embedding of `WaylandWindowInner::do_paint`. If a frame callback is outstanding, just
set `invalidated` and return. Otherwise clear `invalidated`, register a frame
callback via `self.surface()` (which panics — `none` — when the window handle
has been taken), and dispatch `NeedRepaint`. -/
def do_paint (st : WaylandWindowInner) :
    Option (WaylandWindowInner × List WindowEvent × List Effect) :=
  if st.frame_callback then
    some ({ st with invalidated := true }, [], [])
  else if st.window_open then
    some ({ st with invalidated := false, frame_callback := true },
      [WindowEvent.NeedRepaint], [Effect.FrameRequest])
  else
    none

/-- Embedding of `WaylandWindowInner::invalidate`: defer when a frame callback is
outstanding, else paint now (`do_paint().unwrap()`). -/
def invalidate (st : WaylandWindowInner) :
    Option (WaylandWindowInner × List WindowEvent × List Effect) :=
  if st.frame_callback then
    some ({ st with invalidated := true }, [], [])
  else
    do_paint st

/-- Embedding of `WaylandWindowInner::next_frame_is_ready`: take the frame callback and,
if invalidated, repaint (`do_paint().ok()` — the `Result` is swallowed, but a
panic inside `do_paint` still propagates). -/
def next_frame_is_ready (st : WaylandWindowInner) :
    Option (WaylandWindowInner × List WindowEvent × List Effect) :=
  let st' := { st with frame_callback := false }
  if st'.invalidated then do_paint st' else some (st', [], [])

/-- Embedding of `WaylandWindowInner::close`: dispatch `Destroyed` and take the window
handle. -/
def close (st : WaylandWindowInner) : WaylandWindowInner × List WindowEvent :=
  ({ st with window_open := false }, [WindowEvent.Destroyed])

/-- Embedding of `WaylandWindowInner::set_title`: return early when the cached title equals
the requested one; otherwise forward to the compositor window (when present),
refresh the frame, and update the cache. -/
def set_title (st : WaylandWindowInner) (title : String) :
    WaylandWindowInner × List Effect :=
  if st.title = some title then
    (st, [])
  else
    let ef_set : List Effect :=
      if st.window_open then [Effect.SetTitle title] else []
    let ef_commit : List Effect :=
      if st.window_open then [Effect.Commit] else []
    ({ st with title := some title }, ef_set ++ ef_commit)

/-- Step of `dispatch_pending_event`: `if let Some(window_state) =
pending.window_state.take()` replace the canonical flags. -/
def apply_pending_window_state (st : WaylandWindowInner) (p : PendingEvent) :
    WaylandWindowInner :=
  match p.window_state with
  | some ws => { st with window_state := ws }
  | none => st

/-- Step of `dispatch_pending_event`: when no configure is pending but a DPI
change is, synthesize a configure from the current canonical pixel dimensions
converted back to surface units (at the current canonical DPI). -/
def effective_configure (st : WaylandWindowInner) (p : PendingEvent) :
    Option (Nat × Nat) :=
  match p.configure with
  | some c => some c
  | none =>
    if p.dpi.isSome then
      some ((pixels_to_surface st.dimensions.dpi (st.dimensions.pixel_width : Int)).toNat,
            (pixels_to_surface st.dimensions.dpi (st.dimensions.pixel_height : Int)).toNat)
    else none

/-- The geometry recompute of `dispatch_pending_event` for a pending configure
`(w0, h0)`: derive the DPI from the config override or the compositor scale
factor, convert to pixels, and — when resizing is permitted and a resize
increment is configured — snap the pixel size down to the increment boundary
and round-trip it through surface units. Returns the `new_dimensions` value
the source compares against `old_dimensions`. -/
def configure_new_dimensions (st : WaylandWindowInner) (factor : Nat)
    (w0 h0 : Nat) : Dimensions :=
  let dpi := st.config_dpi.getD (factor * DEFAULT_DPI)
  let pixel_width := surface_to_pixels dpi (w0 : Int)
  let pixel_height := surface_to_pixels dpi (h0 : Int)
  if st.window_state.can_resize then
    match st.resize_increments with
    | some (x, y) =>
      let desired_pixel_width := pixel_width - pixel_width % (x : Int)
      let desired_pixel_height := pixel_height - pixel_height % (y : Int)
      let w := (pixels_to_surface dpi desired_pixel_width).toNat
      let h := (pixels_to_surface dpi desired_pixel_height).toNat
      { pixel_width := (surface_to_pixels dpi (w : Int)).toNat
        pixel_height := (surface_to_pixels dpi (h : Int)).toNat
        dpi := dpi }
    | none =>
      { pixel_width := pixel_width.toNat, pixel_height := pixel_height.toNat
        dpi := dpi }
  else
    { pixel_width := pixel_width.toNat, pixel_height := pixel_height.toNat
      dpi := dpi }

/-- The `if new_dimensions != old_dimensions` block of
`dispatch_pending_event`: when the recomputed dimensions differ, install them,
dispatch `Resized`, and (only when the scale factor actually changed) attach
the placeholder buffer and record the new surface scale factor. `stA` is the
state with the derived DPI already written into the canonical dimensions. -/
def configure_resize_step (stA : WaylandWindowInner) (factor : Nat)
    (new_dimensions old_dimensions : Dimensions) :
    WaylandWindowInner × List WindowEvent × List Effect :=
  if new_dimensions ≠ old_dimensions then
    let stB : WaylandWindowInner := { stA with dimensions := new_dimensions }
    if stB.surface_factor ≠ factor then
      ({ stB with surface_factor := factor },
       [WindowEvent.Resized new_dimensions stB.window_state false],
       [Effect.AttachBuffer factor])
    else
      (stB, [WindowEvent.Resized new_dimensions stB.window_state false], [])
  else (stA, [], [])

/-- The geometry part of the configure block: recompute the dimensions, write
the derived DPI into the canonical dimensions early (the source mutates
`self.dimensions.dpi` before comparing), then apply `configure_resize_step`
against the old dimensions. -/
def configure_apply (st1 : WaylandWindowInner) (factor : Nat) (w0 h0 : Nat) :
    WaylandWindowInner × List WindowEvent × List Effect :=
  let new_dimensions := configure_new_dimensions st1 factor w0 h0
  let stA : WaylandWindowInner :=
    { st1 with dimensions := { st1.dimensions with dpi := new_dimensions.dpi } }
  configure_resize_step stA factor new_dimensions st1.dimensions

/-- The configure-processing block of `dispatch_pending_event`
(`if let Some((mut w, mut h)) = pending.configure.take()`): only acts when the
window handle is still present; applies `configure_apply`, then
unconditionally refreshes the frame (surface commit) and paints
(`do_paint().unwrap()`). -/
def process_configure (st1 : WaylandWindowInner) (factor : Nat) :
    Option (Nat × Nat) →
      Option (WaylandWindowInner × List WindowEvent × List Effect)
  | none => some (st1, [], [])
  | some (w0, h0) =>
    if st1.window_open then
      match do_paint (configure_apply st1 factor w0 h0).1 with
      | some (stC, evP, efP) =>
        some (stC, (configure_apply st1 factor w0 h0).2.1 ++ evP,
          (configure_apply st1 factor w0 h0).2.2 ++ [Effect.Commit] ++ efP)
      | none => none
    else some (st1, [], [])

/-- The first-configure block of `dispatch_pending_event`: when this drain
observed a configure and the window is open, `take()` the one-shot sender and
signal it if it was still present. -/
def signal_first_configure (st2 : WaylandWindowInner) (p : PendingEvent) :
    WaylandWindowInner × List Effect :=
  if p.had_configure_event && st2.window_open then
    if st2.pending_first_configure then
      ({ st2 with pending_first_configure := false }, [Effect.SignalFirstConfigure])
    else (st2, [])
  else (st2, [])

/-- Embedding of `WaylandWindowInner::dispatch_pending_event`, applied to the drained
snapshot `p`; `factor` is the integer scale factor read from the surface data
during the pass. -/
def dispatch_pending_event (st : WaylandWindowInner) (p : PendingEvent)
    (factor : Nat) :
    Option (WaylandWindowInner × List WindowEvent × List Effect) :=
  let ev_close : List WindowEvent :=
    if p.close then [WindowEvent.CloseRequested] else []
  let st1 := apply_pending_window_state st p
  match process_configure st1 factor (effective_configure st1 p) with
  | none => none
  | some (st2, evR, efR) =>
    let ef_decor : List Effect :=
      if p.refresh_decorations && st2.window_open then [Effect.Commit] else []
    let gated := signal_first_configure st2 p
    some (gated.1, ev_close ++ evR, efR ++ ef_decor ++ gated.2)

/-- The window-state flags `handle_window_event` derives from the SCTK
configure: `FULL_SCREEN` from the fullscreen bit, `MAXIMIZED` when any of the
maximized/tiled bits is set. -/
def derived_window_state (c : WindowConfigure) : WindowState :=
  { full_screen := c.state.fullscreen
    maximized := c.state.maximized || c.state.tiled_left || c.state.tiled_right
      || c.state.tiled_top || c.state.tiled_bottom }

/-- Embedding of `WaylandState::handle_window_event` restricted to its effect on the
pending buffer; returns the updated buffer and the `changed` flag that decides
whether a reconciliation pass is triggered. -/
def handle_window_event (pending : PendingEvent) :
    WaylandWindowEvent → PendingEvent × Bool
  | WaylandWindowEvent.Close =>
    if !pending.close then ({ pending with close := true }, true)
    else (pending, false)
  | WaylandWindowEvent.Request configure =>
    let pending1 := { pending with had_configure_event := true }
    let sized : PendingEvent × Bool :=
      match configure.new_size with
      | (some w, some h) =>
        ({ pending1 with configure := some (w, h) }, pending1.configure.isNone)
      | _ => (pending1, true)
    let state := derived_window_state configure
    let changed := sized.2
      || (sized.1.window_state.isNone && decide (state ≠ WindowState.default))
    ({ sized.1 with window_state := some state }, changed)

/-- Embedding of `CompositorHandler::scale_factor_changed` for `WaylandState`: the body is
empty (the scale factor is read from the surface data instead), so the pending
buffer is left untouched and no reconciliation is triggered. -/
def scale_factor_changed (pending : PendingEvent) (new_factor : Int) :
    PendingEvent × Bool :=
  (pending, false)

/-- The change condition as the spec words it (for comparison with
`handle_window_event`): changed when the new size differs from the size
already stored in the buffer, or the window-state flags differ from the
currently-pending flags, or this is the first-ever configure. -/
def record_configure_changed_spec (pending : PendingEvent)
    (c : WindowConfigure) : Bool :=
  (match c.new_size with
   | (some w, some h) => decide (pending.configure ≠ some (w, h))
   | _ => false)
  || decide (pending.window_state ≠ some (derived_window_state c))
  || !pending.had_configure_event

/-- A sequence of reconciliation passes: run `dispatch_pending_event` on each
drained snapshot (with its per-pass scale factor) in order, recording for each
pass whether the first-configure gate was signaled. -/
def run_passes :
    WaylandWindowInner → List (PendingEvent × Nat) →
      Option (WaylandWindowInner × List Bool)
  | st, [] => some (st, [])
  | st, (p, factor) :: rest =>
    match dispatch_pending_event st p factor with
    | none => none
    | some (st', _ev, ef) =>
      match run_passes st' rest with
      | none => none
      | some (stF, sigs) =>
        some (stF, decide (Effect.SignalFirstConfigure ∈ ef) :: sigs)

/-- Spec-side description of a one-shot signal over a sequence of passes:
mark only the first `true` of the list, everything after it is suppressed. -/
def mark_first : List Bool → List Bool
  | [] => []
  | b :: rest =>
    if b then true :: rest.map (fun _ => false) else false :: mark_first rest

end Wayland

namespace Wayland

/-- Claim C4: for every positive DPI and every non-negative surface size `s`,
the ceiling-based conversion round-trip `pixels_to_surface ∘ surface_to_pixels`
never yields a surface size smaller than `s`. -/
theorem c4_roundtrip_ge (dpi : Nat) (s : Int) (hdpi : 0 < dpi) (hs : 0 ≤ s) :
    s ≤ pixels_to_surface dpi (surface_to_pixels dpi s) := by
  have hf : (0 : ℚ) < get_dpi_factor dpi := by
    unfold get_dpi_factor
    exact div_pos (by exact_mod_cast hdpi) (by norm_num [DEFAULT_DPI])
  rw [pixels_to_surface_eq_ceil, surface_to_pixels_eq_ceil]
  set f := get_dpi_factor dpi with hfdef
  have h1 : (s : ℚ) * f ≤ ((⌈(s : ℚ) * f⌉ : Int) : ℚ) := Int.le_ceil _
  have h2 : (s : ℚ) ≤ ((⌈(s : ℚ) * f⌉ : Int) : ℚ) / f := by
    rw [le_div_iff₀ hf]
    exact h1
  calc s = ⌈((s : Int) : ℚ)⌉ := (Int.ceil_intCast s).symm
    _ ≤ ⌈((⌈(s : ℚ) * f⌉ : Int) : ℚ) / f⌉ := Int.ceil_le_ceil h2

/-- Witness for C4 at dpi 100, surface size 7 (factor 25/24, round-trip 7→8→8). -/
theorem c4_roundtrip_ge_witness :
    (7 : Int) ≤ pixels_to_surface 100 (surface_to_pixels 100 7) :=
  c4_roundtrip_ge 100 7 (by decide) (by decide)

/-- Claim C10: when the cached title equals the requested title, `set_title`
is a no-op (state unchanged, no compositor call, no commit); a differing title
forwards to the compositor, commits the frame, and updates the cache. -/
theorem c10_set_title (st : WaylandWindowInner) (t : String) :
    (st.title = some t → set_title st t = (st, [])) ∧
    (st.title ≠ some t → st.window_open = true →
      set_title st t =
        ({ st with title := some t }, [Effect.SetTitle t, Effect.Commit])) := by
  constructor
  · intro h
    simp [set_title, h]
  · intro h hw
    simp [set_title, h, hw]

/-- Concrete window state for the C10 witness. -/
def c10_st : WaylandWindowInner :=
  { surface_factor := 1
    window_open := true
    dimensions := ⟨800, 600, 96⟩
    resize_increments := none
    window_state := WindowState.default
    pending_first_configure := false
    frame_callback := false
    invalidated := false
    config_dpi := some 96
    title := some "wezterm" }

/-- Witness for C10: with cached title identical, no effect; with a different
title, the compositor call, the commit and the cache update all happen. -/
theorem c10_set_title_witness :
    set_title c10_st "wezterm" = (c10_st, []) ∧
    set_title c10_st "other" =
      ({ c10_st with title := some "other" },
        [Effect.SetTitle "other", Effect.Commit]) :=
  ⟨(c10_set_title c10_st "wezterm").1 rfl,
   (c10_set_title c10_st "other").2 (by decide) rfl⟩

/-- Claim C5: from the Idle pacer state (no frame callback outstanding, live
window), two paint requests with no intervening frame-ready emit `NeedRepaint`
exactly once (first call only) and leave `invalidated` set; the following
frame-ready then emits exactly one further `NeedRepaint`. -/
theorem c5_frame_pacing (st : WaylandWindowInner)
    (hfc : st.frame_callback = false) (hopen : st.window_open = true) :
    ∃ st1 st2 st3,
      invalidate st =
        some (st1, [WindowEvent.NeedRepaint], [Effect.FrameRequest]) ∧
      invalidate st1 = some (st2, [], []) ∧
      st2.invalidated = true ∧
      next_frame_is_ready st2 =
        some (st3, [WindowEvent.NeedRepaint], [Effect.FrameRequest]) := by
  refine ⟨{ st with invalidated := false, frame_callback := true },
    { st with invalidated := true, frame_callback := true },
    { st with invalidated := false, frame_callback := true }, ?_, ?_, rfl, ?_⟩
  · simp [invalidate, do_paint, hfc, hopen]
  · simp [invalidate, do_paint]
  · simp [next_frame_is_ready, do_paint, hopen]

/-- Concrete window state for the C5 witness. -/
def c5_st : WaylandWindowInner :=
  { surface_factor := 1
    window_open := true
    dimensions := ⟨800, 600, 96⟩
    resize_increments := none
    window_state := WindowState.default
    pending_first_configure := false
    frame_callback := false
    invalidated := false
    config_dpi := some 96
    title := none }

/-- Witness for C5 on a concrete Idle-state window. -/
theorem c5_frame_pacing_witness :
    ∃ st1 st2 st3,
      invalidate c5_st =
        some (st1, [WindowEvent.NeedRepaint], [Effect.FrameRequest]) ∧
      invalidate st1 = some (st2, [], []) ∧
      st2.invalidated = true ∧
      next_frame_is_ready st2 =
        some (st3, [WindowEvent.NeedRepaint], [Effect.FrameRequest]) :=
  c5_frame_pacing c5_st rfl rfl

/-- Concrete window state for C9: a frame callback is outstanding and the
window was invalidated when the close operation ran. -/
def c9_st : WaylandWindowInner :=
  { surface_factor := 1
    window_open := true
    dimensions := ⟨800, 600, 96⟩
    resize_increments := none
    window_state := WindowState.default
    pending_first_configure := false
    frame_callback := true
    invalidated := true
    config_dpi := some 96
    title := none }

/-- Claim C9 evaluated at the failing input: after `close` takes the window
handle, a firing frame callback with `invalidated` set reaches
`do_paint → surface()` whose `expect` panics (modelled as `none`); with
`invalidated` clear the same callback is a harmless no-op. -/
theorem c9_close_frame_callback :
    (close c9_st).1.window_open = false ∧
    next_frame_is_ready (close c9_st).1 = none ∧
    next_frame_is_ready { (close c9_st).1 with invalidated := false } =
      some ({ (close c9_st).1 with invalidated := false, frame_callback := false },
        [], []) := by
  decide

/-- Pending buffer for the C2 counterexample: a configure size and
window-state flags are already stored. -/
def c2_p : PendingEvent :=
  { close := false
    had_configure_event := true
    refresh_decorations := false
    configure := some (50, 50)
    dpi := none
    window_state := some ⟨true, false⟩ }

/-- Incoming configure for the C2 counterexample: a different complete size
and different (default) state bits. -/
def c2_c : WindowConfigure :=
  { new_size := (some 100, some 100)
    state := ⟨false, false, false, false, false, false⟩ }

/-- Counterexample to C2: the incoming size (100,100) differs from the stored
(50,50) and the derived flags differ from the pending flags, so the claim
(and the spec wording, `record_configure_changed_spec`) says `changed = true`;
the code returns `false` because it only checks `configure.is_none()` and
`window_state.is_none()`. -/
theorem c2_counterexample :
    (handle_window_event c2_p (WaylandWindowEvent.Request c2_c)).2 = false ∧
    record_configure_changed_spec c2_p c2_c = true := by
  decide

/-- Claim C2 as amended: the Request branch reports a change exactly when the
configure carries an incomplete size, or no size was stored in the buffer yet,
or no window-state flags were pending and the derived flags are non-default.
A complete size differing from the stored one does not by itself report a
change (the stored size is still overwritten, last-write-wins). -/
theorem c2_amended (p : PendingEvent) (c : WindowConfigure) :
    (handle_window_event p (WaylandWindowEvent.Request c)).2 = true ↔
      (c.new_size.1 = none ∨ c.new_size.2 = none ∨ p.configure = none ∨
        (p.window_state = none ∧ derived_window_state c ≠ WindowState.default)) := by
  rcases c with ⟨⟨s1, s2⟩, cs⟩
  cases s1 <;> cases s2 <;>
    simp [handle_window_event, Option.isNone_iff_eq_none, or_assoc]

/-- Counterexample to C7: the compositor's scale-change callback has an empty
body; it records nothing into the pending buffer (no DPI stored) and triggers
no reconciliation. -/
theorem c7_counterexample :
    scale_factor_changed PendingEvent.default 2 = (PendingEvent.default, false) ∧
    PendingEvent.default.dpi = none := by
  decide

/-- At the reference DPI the factor is 1 and the surface→pixel conversion is
the identity. -/
theorem surface_to_pixels_default (s : Int) :
    surface_to_pixels DEFAULT_DPI s = s := by
  unfold surface_to_pixels
  have hb : (DEFAULT_DPI : Int) ≠ 0 := by norm_num [DEFAULT_DPI]
  rw [show -(s * (DEFAULT_DPI : Int)) = (-s) * (DEFAULT_DPI : Int) by ring,
    Int.mul_ediv_cancel _ hb, neg_neg]

/-- At the reference DPI the pixel→surface conversion is the identity. -/
theorem pixels_to_surface_default (s : Int) :
    pixels_to_surface DEFAULT_DPI s = s := by
  unfold pixels_to_surface
  have hb : (DEFAULT_DPI : Int) ≠ 0 := by norm_num [DEFAULT_DPI]
  rw [show -(s * (DEFAULT_DPI : Int)) = (-s) * (DEFAULT_DPI : Int) by ring,
    Int.mul_ediv_cancel _ hb, neg_neg]

/-- Snapping down to an increment boundary yields a value that is divisible
and non-negative whenever the input is non-negative. -/
theorem snap_down_dvd_nonneg (pw : Int) (x : Nat) (hpw : 0 ≤ pw) (hx : 0 < x) :
    (x : Int) ∣ (pw - pw % (x : Int)) ∧ 0 ≤ pw - pw % (x : Int) := by
  have hmod : pw - pw % (x : Int) = (x : Int) * (pw / (x : Int)) := by
    rw [Int.emod_def]
    ring
  constructor
  · exact ⟨pw / (x : Int), hmod⟩
  · rw [hmod]
    exact mul_nonneg (by positivity) (Int.ediv_nonneg hpw (by positivity))

/-- Concrete window state for the C3 counterexample: resizable, increments
(10, 10), DPI override 100 (factor 25/24). -/
def c3_st : WaylandWindowInner :=
  { surface_factor := 1
    window_open := true
    dimensions := ⟨0, 0, 96⟩
    resize_increments := some (10, 10)
    window_state := WindowState.default
    pending_first_configure := false
    frame_callback := false
    invalidated := false
    config_dpi := some 100
    title := none }

/-- Pending snapshot for the C3 counterexample: configure with surface size
(10, 10). -/
def c3_p : PendingEvent :=
  { close := false
    had_configure_event := true
    refresh_decorations := false
    configure := some (10, 10)
    dpi := none
    window_state := none }

/-- Counterexample to C3: with increment (10, 10) and DPI 100 the snapped
pixel size 10 round-trips through surface units to 11 (ceil(ceil(10·24/25)·
25/24) = 11), so the reconciled canonical pixel size 11 is not a multiple of
the increment 10. The state is resizable and an increment is configured. -/
theorem c3_counterexample :
    c3_st.window_state.can_resize = true ∧
    c3_st.resize_increments = some (10, 10) ∧
    dispatch_pending_event c3_st c3_p 1 =
      some ({ c3_st with dimensions := ⟨11, 11, 100⟩, frame_callback := true },
        [WindowEvent.Resized ⟨11, 11, 100⟩ WindowState.default false,
         WindowEvent.NeedRepaint],
        [Effect.Commit, Effect.FrameRequest]) ∧
    ¬ (10 ∣ 11) := by
  decide

/-- Claim C3 as amended: with resizing permitted and a resize increment
configured, the snapped pixel size is an exact increment multiple, and the
final reconciled pixel dimensions are exact multiples of the increment
whenever the effective DPI is the reference DPI (factor 1, where the
surface round-trip is the identity); for other factors the ceiling round-trip
can overshoot the multiple. -/
theorem c3_increment_snapping (st : WaylandWindowInner) (factor w0 h0 x y : Nat)
    (hcr : st.window_state.can_resize = true)
    (hinc : st.resize_increments = some (x, y))
    (hx : 0 < x) (hy : 0 < y)
    (hdpi : st.config_dpi = some DEFAULT_DPI) :
    x ∣ (configure_new_dimensions st factor w0 h0).pixel_width ∧
    y ∣ (configure_new_dimensions st factor w0 h0).pixel_height := by
  unfold configure_new_dimensions
  rw [hdpi, hcr, hinc]
  simp only [Option.getD_some, if_true]
  rw [surface_to_pixels_default (w0 : Int), surface_to_pixels_default (h0 : Int)]
  obtain ⟨hdw, hnw⟩ :=
    snap_down_dvd_nonneg (w0 : Int) x (by positivity) hx
  obtain ⟨hdh, hnh⟩ :=
    snap_down_dvd_nonneg (h0 : Int) y (by positivity) hy
  rw [pixels_to_surface_default, pixels_to_surface_default,
    Int.toNat_of_nonneg hnw, Int.toNat_of_nonneg hnh,
    surface_to_pixels_default, surface_to_pixels_default]
  constructor
  · rw [← Int.natCast_dvd_natCast, Int.toNat_of_nonneg hnw]
    exact hdw
  · rw [← Int.natCast_dvd_natCast, Int.toNat_of_nonneg hnh]
    exact hdh

/-- Concrete window state for the C3 witness: increments (7, 5) at the
reference DPI. -/
def c3w_st : WaylandWindowInner :=
  { surface_factor := 1
    window_open := true
    dimensions := ⟨0, 0, 96⟩
    resize_increments := some (7, 5)
    window_state := WindowState.default
    pending_first_configure := false
    frame_callback := false
    invalidated := false
    config_dpi := some DEFAULT_DPI
    title := none }

/-- Witness for the amended C3: configure (23, 17) at reference DPI with
increments (7, 5) reconciles to (21, 15), multiples of the increments. -/
theorem c3_increment_snapping_witness :
    7 ∣ (configure_new_dimensions c3w_st 1 23 17).pixel_width ∧
    5 ∣ (configure_new_dimensions c3w_st 1 23 17).pixel_height :=
  c3_increment_snapping c3w_st 1 23 17 7 5 rfl rfl (by decide) (by decide) rfl

/-- Lemma: `apply_pending_window_state` only touches the window-state flags. -/
theorem apply_pending_window_state_fields (st : WaylandWindowInner)
    (p : PendingEvent) :
    (apply_pending_window_state st p).window_open = st.window_open ∧
    (apply_pending_window_state st p).pending_first_configure =
      st.pending_first_configure ∧
    (apply_pending_window_state st p).dimensions = st.dimensions ∧
    (apply_pending_window_state st p).config_dpi = st.config_dpi ∧
    (apply_pending_window_state st p).frame_callback = st.frame_callback := by
  unfold apply_pending_window_state
  cases p.window_state <;> exact ⟨rfl, rfl, rfl, rfl, rfl⟩

/-- Lemma: `do_paint` preserves the window handle, the gate and the dimensions, and
never emits the first-configure signal. -/
theorem do_paint_fields (st st' : WaylandWindowInner) (ev : List WindowEvent)
    (ef : List Effect) (h : do_paint st = some (st', ev, ef)) :
    st'.window_open = st.window_open ∧
    st'.pending_first_configure = st.pending_first_configure ∧
    st'.dimensions = st.dimensions ∧
    Effect.SignalFirstConfigure ∉ ef := by
  unfold do_paint at h
  split at h
  · simp only [Option.some.injEq, Prod.mk.injEq] at h
    obtain ⟨h1, h2, h3⟩ := h
    subst h1 h2 h3
    exact ⟨rfl, rfl, rfl, by simp⟩
  · split at h
    · simp only [Option.some.injEq, Prod.mk.injEq] at h
      obtain ⟨h1, h2, h3⟩ := h
      subst h1 h2 h3
      exact ⟨rfl, rfl, rfl, by simp⟩
    · exact absurd h (by simp)

/-- Lemma: `configure_resize_step` preserves the window handle and the gate, never
emits the first-configure signal, always lands on the recomputed dimensions
(when they equal the old ones, writing the DPI early already produced them),
and dispatches `Resized` exactly when the dimensions changed. -/
theorem configure_resize_step_fields (stA : WaylandWindowInner) (factor : Nat)
    (nd od : Dimensions) (hA : stA.dimensions = { od with dpi := nd.dpi }) :
    (configure_resize_step stA factor nd od).1.window_open = stA.window_open ∧
    (configure_resize_step stA factor nd od).1.pending_first_configure =
      stA.pending_first_configure ∧
    (configure_resize_step stA factor nd od).1.frame_callback =
      stA.frame_callback ∧
    (configure_resize_step stA factor nd od).1.dimensions = nd ∧
    Effect.SignalFirstConfigure ∉ (configure_resize_step stA factor nd od).2.2 ∧
    (nd = od → (configure_resize_step stA factor nd od).2.1 = []) := by
  unfold configure_resize_step
  split
  case isTrue hne =>
    dsimp only
    split
    · exact ⟨rfl, rfl, rfl, rfl, by simp, fun he => absurd he hne⟩
    · exact ⟨rfl, rfl, rfl, rfl, by simp, fun he => absurd he hne⟩
  case isFalse heq =>
    refine ⟨rfl, rfl, rfl, ?_, by simp, fun _ => rfl⟩
    rw [hA, not_ne_iff.mp heq]

/-- Lemma: `configure_apply` preserves the window handle, the gate and the frame
callback, lands on the recomputed dimensions, and never signals the gate. -/
theorem configure_apply_fields (st1 : WaylandWindowInner) (factor w0 h0 : Nat) :
    (configure_apply st1 factor w0 h0).1.window_open = st1.window_open ∧
    (configure_apply st1 factor w0 h0).1.pending_first_configure =
      st1.pending_first_configure ∧
    (configure_apply st1 factor w0 h0).1.frame_callback = st1.frame_callback ∧
    (configure_apply st1 factor w0 h0).1.dimensions =
      configure_new_dimensions st1 factor w0 h0 ∧
    Effect.SignalFirstConfigure ∉ (configure_apply st1 factor w0 h0).2.2 := by
  unfold configure_apply
  obtain ⟨h1, h2, h3, h4, h5, _⟩ := configure_resize_step_fields
    { st1 with dimensions :=
        { st1.dimensions with dpi := (configure_new_dimensions st1 factor w0 h0).dpi } }
    factor (configure_new_dimensions st1 factor w0 h0) st1.dimensions rfl
  exact ⟨h1, h2, h3, h4, h5⟩

/-- When the recomputed dimensions equal the current canonical dimensions the
resize step collapses to the identity: no `Resized`, no attach, no change. -/
theorem configure_apply_unchanged (st1 : WaylandWindowInner)
    (factor w0 h0 : Nat)
    (hsame : configure_new_dimensions st1 factor w0 h0 = st1.dimensions) :
    configure_apply st1 factor w0 h0 = (st1, [], []) := by
  unfold configure_apply
  dsimp only
  rw [hsame]
  unfold configure_resize_step
  simp

/-- Lemma: `process_configure` preserves the window handle and the gate and never
emits the first-configure signal. -/
theorem process_configure_fields (st1 : WaylandWindowInner) (factor : Nat)
    (c : Option (Nat × Nat)) (st2 : WaylandWindowInner)
    (ev : List WindowEvent) (ef : List Effect)
    (h : process_configure st1 factor c = some (st2, ev, ef)) :
    st2.window_open = st1.window_open ∧
    st2.pending_first_configure = st1.pending_first_configure ∧
    Effect.SignalFirstConfigure ∉ ef := by
  cases c with
  | none =>
    simp only [process_configure, Option.some.injEq, Prod.mk.injEq] at h
    obtain ⟨h1, h2, h3⟩ := h
    subst h1 h2 h3
    exact ⟨rfl, rfl, by simp⟩
  | some wh =>
    obtain ⟨w0, h0⟩ := wh
    rcases hdp : do_paint (configure_apply st1 factor w0 h0).1 with _ | r
    · simp only [process_configure, hdp] at h
      split at h
      · exact absurd h (by simp)
      · simp only [Option.some.injEq, Prod.mk.injEq] at h
        obtain ⟨h1, h2, h3⟩ := h
        subst h1 h2 h3
        exact ⟨rfl, rfl, by simp⟩
    · obtain ⟨stC, evP, efP⟩ := r
      simp only [process_configure, hdp] at h
      split at h
      · simp only [Option.some.injEq, Prod.mk.injEq] at h
        obtain ⟨h1, h2, h3⟩ := h
        subst h1 h2 h3
        obtain ⟨ha1, ha2, _, _, ha5⟩ := configure_apply_fields st1 factor w0 h0
        obtain ⟨hp1, hp2, _, hp4⟩ := do_paint_fields _ _ _ _ hdp
        refine ⟨hp1.trans ha1, hp2.trans ha2, ?_⟩
        simp only [List.mem_append, List.mem_singleton]
        rintro ((hm | hm) | hm)
        · exact ha5 hm
        · cases hm
        · exact hp4 hm
      · simp only [Option.some.injEq, Prod.mk.injEq] at h
        obtain ⟨h1, h2, h3⟩ := h
        subst h1 h2 h3
        exact ⟨rfl, rfl, by simp⟩

/-- Lemma: `process_configure` succeeds whenever the window is open (the panic path
inside `do_paint` requires the window handle to be gone). -/
theorem process_configure_isSome (st1 : WaylandWindowInner) (factor : Nat)
    (c : Option (Nat × Nat)) (hopen : st1.window_open = true) :
    ∃ r, process_configure st1 factor c = some r := by
  cases c with
  | none => exact ⟨(st1, [], []), rfl⟩
  | some wh =>
    obtain ⟨w0, h0⟩ := wh
    obtain ⟨ha1, _, _, _, _⟩ := configure_apply_fields st1 factor w0 h0
    unfold process_configure
    dsimp only
    rw [if_pos hopen]
    rcases hdp : do_paint (configure_apply st1 factor w0 h0).1 with _ | r
    · exfalso
      unfold do_paint at hdp
      rw [ha1.trans hopen] at hdp
      split at hdp
      · cases hdp
      · cases hdp
    · obtain ⟨stC, evP, efP⟩ := r
      exact ⟨_, rfl⟩


/-- Lemma: `do_paint` succeeds whenever the window is open. -/
theorem do_paint_isSome (st : WaylandWindowInner) (hopen : st.window_open = true) :
    ∃ r, do_paint st = some r := by
  unfold do_paint
  rcases hfc : st.frame_callback
  · rw [if_neg (by simp), if_pos hopen]
    exact ⟨_, rfl⟩
  · exact ⟨_, rfl⟩

/-- The DPI of the recomputed dimensions is the config override or the scale
factor times the reference DPI, in every branch. -/
theorem configure_new_dimensions_dpi (st : WaylandWindowInner)
    (factor w0 h0 : Nat) :
    (configure_new_dimensions st factor w0 h0).dpi =
      st.config_dpi.getD (factor * DEFAULT_DPI) := by
  unfold configure_new_dimensions
  dsimp only
  split
  · split <;> rfl
  · rfl

/-- Lemma: `signal_first_configure` only touches the gate: the window handle and the
dimensions are preserved, the gate is consumed exactly when the pass observed
a configure on an open window, and the signal effect is emitted exactly when
in addition the gate was still pending. -/
theorem signal_first_configure_fields (st2 : WaylandWindowInner)
    (p : PendingEvent) :
    (signal_first_configure st2 p).1.window_open = st2.window_open ∧
    (signal_first_configure st2 p).1.dimensions = st2.dimensions ∧
    (signal_first_configure st2 p).1.pending_first_configure =
      (st2.pending_first_configure &&
        !(p.had_configure_event && st2.window_open)) ∧
    ((Effect.SignalFirstConfigure ∈ (signal_first_configure st2 p).2) ↔
      (st2.pending_first_configure = true ∧ p.had_configure_event = true ∧
        st2.window_open = true)) := by
  unfold signal_first_configure
  rcases hhce : p.had_configure_event <;> rcases hwo : st2.window_open <;>
    rcases hpf : st2.pending_first_configure <;>
      simp [hhce, hwo, hpf]

/-- One-step unfolding of `dispatch_pending_event` once the configure block
has been resolved. -/
theorem dispatch_eq (st : WaylandWindowInner) (p : PendingEvent) (factor : Nat)
    (st2 : WaylandWindowInner) (evR : List WindowEvent) (efR : List Effect)
    (hpc : process_configure (apply_pending_window_state st p) factor
      (effective_configure (apply_pending_window_state st p) p) =
        some (st2, evR, efR)) :
    dispatch_pending_event st p factor =
      some ((signal_first_configure st2 p).1,
        (if p.close then [WindowEvent.CloseRequested] else []) ++ evR,
        efR ++
          (if p.refresh_decorations && st2.window_open then [Effect.Commit]
            else []) ++
          (signal_first_configure st2 p).2) := by
  simp only [dispatch_pending_event, hpc]

/-- A reconciliation pass preserves the window handle, consumes the gate
exactly when the drained snapshot observed a configure on an open window,
and emits the first-configure signal exactly when in addition the gate was
still pending. -/
theorem dispatch_fields (st : WaylandWindowInner) (p : PendingEvent)
    (factor : Nat) (st' : WaylandWindowInner) (ev : List WindowEvent)
    (ef : List Effect)
    (h : dispatch_pending_event st p factor = some (st', ev, ef)) :
    st'.window_open = st.window_open ∧
    st'.pending_first_configure =
      (st.pending_first_configure &&
        !(p.had_configure_event && st.window_open)) ∧
    ((Effect.SignalFirstConfigure ∈ ef) ↔
      (st.pending_first_configure = true ∧ p.had_configure_event = true ∧
        st.window_open = true)) := by
  obtain ⟨hw1, hg1, _, _, _⟩ := apply_pending_window_state_fields st p
  rcases hpc : process_configure (apply_pending_window_state st p) factor
      (effective_configure (apply_pending_window_state st p) p) with _ | r
  · rw [dispatch_pending_event, hpc] at h
    exact absurd h (by simp)
  · obtain ⟨st2, evR, efR⟩ := r
    rw [dispatch_eq st p factor st2 evR efR hpc] at h
    simp only [Option.some.injEq, Prod.mk.injEq] at h
    obtain ⟨h1, _, h3⟩ := h
    obtain ⟨hpo, hpg, hps⟩ := process_configure_fields _ _ _ _ _ _ hpc
    obtain ⟨hs1, _, hs3, hs4⟩ := signal_first_configure_fields st2 p
    have hopen2 : st2.window_open = st.window_open := hpo.trans hw1
    have hgate2 : st2.pending_first_configure = st.pending_first_configure :=
      hpg.trans hg1
    subst h1
    refine ⟨hs1.trans hopen2, ?_, ?_⟩
    · rw [hs3, hgate2, hopen2]
    · rw [← h3]
      have hdec : Effect.SignalFirstConfigure ∉
          (if p.refresh_decorations && st2.window_open then [Effect.Commit]
            else []) := by
        split <;> simp
      rw [hgate2, hopen2] at hs4
      simp only [List.mem_append]
      constructor
      · rintro ((hm | hm) | hm)
        · exact absurd hm hps
        · exact absurd hm hdec
        · exact hs4.mp hm
      · intro hr
        exact Or.inr (hs4.mpr hr)


/-- Claim C6: when the drained snapshot has both a close request and a
configure pending, `CloseRequested` is the first event of the pass — it is
emitted before any `Resized` or other effect of the configure. -/
theorem c6_close_first (st : WaylandWindowInner) (p : PendingEvent)
    (factor : Nat) (st' : WaylandWindowInner) (ev : List WindowEvent)
    (ef : List Effect) (hclose : p.close = true)
    (hcfg : p.configure.isSome = true)
    (h : dispatch_pending_event st p factor = some (st', ev, ef)) :
    ev.head? = some WindowEvent.CloseRequested := by
  rcases hpc : process_configure (apply_pending_window_state st p) factor
      (effective_configure (apply_pending_window_state st p) p) with _ | r
  · rw [dispatch_pending_event, hpc] at h
    exact absurd h (by simp)
  · obtain ⟨st2, evR, efR⟩ := r
    rw [dispatch_eq st p factor st2 evR efR hpc] at h
    simp only [Option.some.injEq, Prod.mk.injEq] at h
    obtain ⟨_, h2, _⟩ := h
    rw [← h2, hclose]
    simp

/-- Concrete state and snapshot for the C6 witness. -/
def c6_st : WaylandWindowInner :=
  { surface_factor := 1
    window_open := true
    dimensions := ⟨800, 600, 96⟩
    resize_increments := none
    window_state := WindowState.default
    pending_first_configure := false
    frame_callback := true
    invalidated := false
    config_dpi := some 96
    title := none }

/-- Snapshot for the C6 witness: close and configure both pending. -/
def c6_p : PendingEvent :=
  { close := true
    had_configure_event := true
    refresh_decorations := false
    configure := some (800, 600)
    dpi := none
    window_state := none }

/-- Witness for C6 on a concrete pass with close and configure pending. -/
theorem c6_close_first_witness :
    ([WindowEvent.CloseRequested] : List WindowEvent).head? =
      some WindowEvent.CloseRequested :=
  c6_close_first c6_st c6_p 1 { c6_st with invalidated := true }
    [WindowEvent.CloseRequested] [Effect.Commit] rfl rfl (by decide)

/-- Claim C7 as amended: the compositor scale-change callback itself is a
deliberate no-op (`scale_factor_changed` reads nothing and records nothing;
the factor is read from the surface data during the next pass), but the
reconciler's synthesis path holds: a pass whose snapshot carries a pending
DPI and no surface size synthesizes a configure from the canonical pixel
dimensions, so the pass recomputes geometry — the canonical DPI becomes the
derived one and the frame is refreshed. -/
theorem c7_scale_change_synthesis (st : WaylandWindowInner) (p : PendingEvent)
    (factor : Nat) (hopen : st.window_open = true)
    (hcfg : p.configure = none) (hdpi : p.dpi.isSome = true) :
    ∃ st' ev ef, dispatch_pending_event st p factor = some (st', ev, ef) ∧
      st'.dimensions.dpi = st.config_dpi.getD (factor * DEFAULT_DPI) ∧
      Effect.Commit ∈ ef := by
  obtain ⟨hw1, _, hd1, hc1, _⟩ := apply_pending_window_state_fields st p
  have hopen1 : (apply_pending_window_state st p).window_open = true :=
    hw1.trans hopen
  set sw := (pixels_to_surface (apply_pending_window_state st p).dimensions.dpi
    ((apply_pending_window_state st p).dimensions.pixel_width : Int)).toNat with hsw
  set sh := (pixels_to_surface (apply_pending_window_state st p).dimensions.dpi
    ((apply_pending_window_state st p).dimensions.pixel_height : Int)).toNat with hsh
  have hec : effective_configure (apply_pending_window_state st p) p =
      some (sw, sh) := by
    unfold effective_configure
    rw [hcfg]
    rw [if_pos hdpi]
  obtain ⟨ha1, _, _, ha4, _⟩ := configure_apply_fields
    (apply_pending_window_state st p) factor sw sh
  obtain ⟨⟨stC, evP, efP⟩, hdp⟩ := do_paint_isSome _ (ha1.trans hopen1)
  have hproc : process_configure (apply_pending_window_state st p) factor
      (effective_configure (apply_pending_window_state st p) p) =
      some (stC,
        (configure_apply (apply_pending_window_state st p) factor sw sh).2.1 ++ evP,
        (configure_apply (apply_pending_window_state st p) factor sw sh).2.2 ++
          [Effect.Commit] ++ efP) := by
    rw [hec]
    simp only [process_configure, hopen1, if_true, hdp]
  refine ⟨_, _, _, dispatch_eq st p factor _ _ _ hproc, ?_, ?_⟩
  · obtain ⟨_, hs2, _, _⟩ := signal_first_configure_fields stC p
    obtain ⟨_, _, hpd, _⟩ := do_paint_fields _ _ _ _ hdp
    rw [hs2, hpd, ha4, configure_new_dimensions_dpi, hc1]
  · simp

/-- Concrete state for the C7 witness: no DPI override, scale factor moves to
2 via a pending DPI record; geometry is recomputed (dpi 192). -/
def c7_st : WaylandWindowInner :=
  { surface_factor := 1
    window_open := true
    dimensions := ⟨800, 600, 96⟩
    resize_increments := none
    window_state := WindowState.default
    pending_first_configure := false
    frame_callback := true
    invalidated := false
    config_dpi := none
    title := none }

/-- Snapshot for the C7 witness: only a DPI change is pending. -/
def c7_p : PendingEvent :=
  { close := false
    had_configure_event := false
    refresh_decorations := false
    configure := none
    dpi := some 2
    window_state := none }

/-- Witness for the amended C7 at scale factor 2. -/
theorem c7_scale_change_synthesis_witness :
    ∃ st' ev ef, dispatch_pending_event c7_st c7_p 2 = some (st', ev, ef) ∧
      st'.dimensions.dpi = c7_st.config_dpi.getD (2 * DEFAULT_DPI) ∧
      Effect.Commit ∈ ef :=
  c7_scale_change_synthesis c7_st c7_p 2 rfl rfl rfl

/-- Claim C1 as amended: reconciling a configure whose recomputed dimensions
(size and derived DPI) equal the current canonical dimensions emits no
`Resized` event, but the pass still refreshes the frame and triggers a paint
through the frame pacer — in particular, when no frame callback is
outstanding it emits a `NeedRepaint` (only the resize steps are skipped, not
the repaint). -/
theorem c1_idempotent_configure (st : WaylandWindowInner) (p : PendingEvent)
    (factor w0 h0 : Nat) (hopen : st.window_open = true)
    (hcfg : p.configure = some (w0, h0))
    (hsame : configure_new_dimensions (apply_pending_window_state st p) factor
      w0 h0 = (apply_pending_window_state st p).dimensions) :
    ∃ st' ev ef, dispatch_pending_event st p factor = some (st', ev, ef) ∧
      (∀ d ws l, WindowEvent.Resized d ws l ∉ ev) ∧
      Effect.Commit ∈ ef ∧
      (st.frame_callback = false → WindowEvent.NeedRepaint ∈ ev) := by
  obtain ⟨hw1, _, _, _, hf1⟩ := apply_pending_window_state_fields st p
  have hopen1 : (apply_pending_window_state st p).window_open = true :=
    hw1.trans hopen
  have hec : effective_configure (apply_pending_window_state st p) p =
      some (w0, h0) := by
    unfold effective_configure
    rw [hcfg]
  have hca := configure_apply_unchanged (apply_pending_window_state st p)
    factor w0 h0 hsame
  obtain ⟨⟨stC, evP, efP⟩, hdp⟩ := do_paint_isSome
    (configure_apply (apply_pending_window_state st p) factor w0 h0).1
    (by rw [hca]; exact hopen1)
  have hproc : process_configure (apply_pending_window_state st p) factor
      (effective_configure (apply_pending_window_state st p) p) =
      some (stC, [] ++ evP, [] ++ [Effect.Commit] ++ efP) := by
    rw [hca] at hdp
    dsimp only at hdp
    rw [hec]
    simp only [process_configure, hopen1, if_true, hca, hdp]
  refine ⟨_, _, _, dispatch_eq st p factor _ _ _ hproc, ?_, ?_, ?_⟩
  · intro d ws l
    have hevP : evP = [] ∨ evP = [WindowEvent.NeedRepaint] := by
      unfold do_paint at hdp
      split at hdp
      · simp only [Option.some.injEq, Prod.mk.injEq] at hdp
        exact Or.inl hdp.2.1.symm
      · split at hdp
        · simp only [Option.some.injEq, Prod.mk.injEq] at hdp
          exact Or.inr hdp.2.1.symm
        · exact absurd hdp (by simp)
    rcases hevP with hE | hE <;> rcases hcl : p.close <;>
      simp [hE, hcl]
  · simp
  · intro hfc
    have hfc1 : (configure_apply (apply_pending_window_state st p) factor
        w0 h0).1.frame_callback = false := by
      rw [hca]
      exact hf1.trans hfc
    have : evP = [WindowEvent.NeedRepaint] := by
      unfold do_paint at hdp
      rw [if_neg (by simp [hfc1]), if_pos (by rw [hca]; exact hopen1)] at hdp
      simp only [Option.some.injEq, Prod.mk.injEq] at hdp
      exact hdp.2.1.symm
    rcases hcl : p.close <;> simp [this, hcl]

/-- Concrete window state for C1: canonical dimensions 800×600 at dpi 96,
Idle frame pacer. -/
def c1_st : WaylandWindowInner :=
  { surface_factor := 1
    window_open := true
    dimensions := ⟨800, 600, 96⟩
    resize_increments := none
    window_state := WindowState.default
    pending_first_configure := false
    frame_callback := false
    invalidated := false
    config_dpi := some 96
    title := none }

/-- Snapshot for C1: a configure carrying the same surface size (800, 600)
whose derived DPI (override 96) matches the canonical state. -/
def c1_p : PendingEvent :=
  { close := false
    had_configure_event := true
    refresh_decorations := false
    configure := some (800, 600)
    dpi := none
    window_state := none }

/-- Counterexample to C1 as stated: the identical configure produces no
`Resized` (first conjunct shows the recomputed dimensions equal the canonical
ones), yet the pass still emits `NeedRepaint`, commits the frame and registers
a frame callback — the paint trigger is not skipped. -/
theorem c1_counterexample :
    configure_new_dimensions c1_st 1 800 600 = c1_st.dimensions ∧
    dispatch_pending_event c1_st c1_p 1 =
      some ({ c1_st with frame_callback := true },
        [WindowEvent.NeedRepaint], [Effect.Commit, Effect.FrameRequest]) := by
  decide

/-- Witness for the amended C1 at the same concrete input. -/
theorem c1_idempotent_configure_witness :
    ∃ st' ev ef, dispatch_pending_event c1_st c1_p 1 = some (st', ev, ef) ∧
      (∀ d ws l, WindowEvent.Resized d ws l ∉ ev) ∧
      Effect.Commit ∈ ef ∧
      (c1_st.frame_callback = false → WindowEvent.NeedRepaint ∈ ev) :=
  c1_idempotent_configure c1_st c1_p 1 800 600 rfl rfl (by decide)


/-- A constant-false map contains no `true`. -/
theorem count_true_map_false {α : Type} (l : List α) :
    ((l.map (fun _ => false)).count true) = 0 := by
  induction l with
  | nil => rfl
  | cons a t ih => simpa using ih

/-- Lemma: `mark_first` marks at most one entry. -/
theorem mark_first_count_le (l : List Bool) : (mark_first l).count true ≤ 1 := by
  induction l with
  | nil => simp [mark_first]
  | cons b rest ih =>
    unfold mark_first
    split
    · simp [List.count_cons, count_true_map_false, List.count_replicate]
    · simpa [List.count_cons] using ih

/-- Once the gate has been consumed, no later pass signals it. -/
theorem run_passes_no_signal (ps : List (PendingEvent × Nat)) :
    ∀ st stF sigs, st.pending_first_configure = false →
      run_passes st ps = some (stF, sigs) → sigs = ps.map (fun _ => false) := by
  induction ps with
  | nil =>
    intro st stF sigs _ hr
    simp only [run_passes, Option.some.injEq, Prod.mk.injEq] at hr
    exact hr.2.symm
  | cons q rest ih =>
    intro st stF sigs hpfc hr
    obtain ⟨p, factor⟩ := q
    unfold run_passes at hr
    rcases hd : dispatch_pending_event st p factor with _ | r
    · rw [hd] at hr
      exact absurd hr (by simp)
    · obtain ⟨st1, ev1, ef1⟩ := r
      rw [hd] at hr
      dsimp only at hr
      rcases hrr : run_passes st1 rest with _ | r2
      · rw [hrr] at hr
        exact absurd hr (by simp)
      · obtain ⟨stF2, sigs2⟩ := r2
        rw [hrr] at hr
        dsimp only at hr
        simp only [Option.some.injEq, Prod.mk.injEq] at hr
        obtain ⟨hr1, hr2⟩ := hr
        obtain ⟨_, hp, hs⟩ := dispatch_fields _ _ _ _ _ _ hd
        have hpf1 : st1.pending_first_configure = false := by
          rw [hp, hpfc]
          rfl
        have hnot : Effect.SignalFirstConfigure ∉ ef1 := by
          rw [hs]
          rintro ⟨hpf, _, _⟩
          rw [hpfc] at hpf
          cases hpf
        rw [← hr2, ih st1 stF2 sigs2 hpf1 hrr]
        simp [hnot]

/-- Claim C8: over any sequence of reconciliation passes of a live window
whose first-configure gate is still pending, the gate is signaled exactly on
the first pass whose drained snapshot observed a configure (later configure
passes find the one-shot sender consumed and are no-ops), hence it is
signaled at most once. -/
theorem c8_first_configure_gate (ps : List (PendingEvent × Nat)) :
    ∀ st stF sigs, st.window_open = true →
      st.pending_first_configure = true →
      run_passes st ps = some (stF, sigs) →
      sigs = mark_first (ps.map (fun q => q.1.had_configure_event)) ∧
        sigs.count true ≤ 1 := by
  induction ps with
  | nil =>
    intro st stF sigs _ _ hr
    simp only [run_passes, Option.some.injEq, Prod.mk.injEq] at hr
    rw [← hr.2]
    exact ⟨rfl, by simp⟩
  | cons q rest ih =>
    intro st stF sigs hopen hgate hr
    obtain ⟨p, factor⟩ := q
    unfold run_passes at hr
    rcases hd : dispatch_pending_event st p factor with _ | r
    · rw [hd] at hr
      exact absurd hr (by simp)
    · obtain ⟨st1, ev1, ef1⟩ := r
      rw [hd] at hr
      dsimp only at hr
      rcases hrr : run_passes st1 rest with _ | r2
      · rw [hrr] at hr
        exact absurd hr (by simp)
      · obtain ⟨stF2, sigs2⟩ := r2
        rw [hrr] at hr
        dsimp only at hr
        simp only [Option.some.injEq, Prod.mk.injEq] at hr
        obtain ⟨hr1, hr2⟩ := hr
        obtain ⟨ho, hp, hs⟩ := dispatch_fields _ _ _ _ _ _ hd
        have hopen1 : st1.window_open = true := ho.trans hopen
        rcases hhce : p.had_configure_event
        · have hnot : Effect.SignalFirstConfigure ∉ ef1 := by
            rw [hs]
            rintro ⟨_, hh, _⟩
            rw [hhce] at hh
            cases hh
          have hgate1 : st1.pending_first_configure = true := by
            rw [hp, hgate, hhce]
            rfl
          obtain ⟨ihe, _⟩ := ih st1 stF2 sigs2 hopen1 hgate1 hrr
          rw [← hr2, ihe]
          constructor
          · simp only [List.map_cons, hhce]
            rw [mark_first]
            simp [hnot]
          · simp only [List.count_cons, hnot]
            simpa using mark_first_count_le
              (rest.map (fun q => q.1.had_configure_event))
        · have hsig : Effect.SignalFirstConfigure ∈ ef1 :=
            hs.mpr ⟨hgate, hhce, hopen⟩
          have hgate1 : st1.pending_first_configure = false := by
            rw [hp, hgate, hhce, hopen]
            rfl
          have hrest := run_passes_no_signal rest st1 stF2 sigs2 hgate1 hrr
          rw [← hr2, hrest]
          constructor
          · simp only [List.map_cons, hhce]
            rw [mark_first]
            simp only [if_true]
            rw [List.map_map]
            simp [hsig]
          · simp [List.count_cons, hsig, count_true_map_false,
              List.count_replicate]

/-- Concrete initial state for the C8 witness: gate pending, frame callback
outstanding. -/
def c8_st : WaylandWindowInner :=
  { surface_factor := 1
    window_open := true
    dimensions := ⟨800, 600, 96⟩
    resize_increments := none
    window_state := WindowState.default
    pending_first_configure := true
    frame_callback := true
    invalidated := false
    config_dpi := some 96
    title := none }

/-- An empty snapshot (no configure observed) for the C8 witness. -/
def c8_p0 : PendingEvent := PendingEvent.default

/-- A configure snapshot for the C8 witness. -/
def c8_p1 : PendingEvent :=
  { close := false
    had_configure_event := true
    refresh_decorations := false
    configure := some (800, 600)
    dpi := none
    window_state := none }

/-- Witness for C8: three passes (no configure, configure, configure again)
signal exactly on the second pass. -/
theorem c8_first_configure_gate_witness :
    ([false, true, false] : List Bool) =
      mark_first (([(c8_p0, 1), (c8_p1, 1), (c8_p1, 1)].map
        (fun q => q.1.had_configure_event))) ∧
    ([false, true, false] : List Bool).count true ≤ 1 :=
  c8_first_configure_gate [(c8_p0, 1), (c8_p1, 1), (c8_p1, 1)] c8_st
    { c8_st with pending_first_configure := false, invalidated := true }
    [false, true, false] rfl rfl (by decide)

end Wayland
